import Mathlib

/-!
Shallow embedding of the zos-swap-sdk client (src/SwapSDK.ts).

The SDK is a thin wrapper around one HTTP client: a constructor that fixes
`baseURL`, `timeout` and default headers, a request interceptor that attaches
the auth token header, a response interceptor that normalizes failures into
`SwapAPIError {message, code?}`, and seven endpoint methods, each of which
builds one request and returns the backend response body unchanged.

JavaScript values are modelled as follows: JSON bodies as the inductive
`Json` (JS numbers as `Int`, since the client never computes with them);
JS objects used as header maps as association lists with first-match lookup;
the object spread `{a, ...b}` as `spreadMerge a b` (later keys override);
JS truthiness of an optional string (`undefined` and `""` are falsy) via
`jsOrStr` and the explicit `== ""` tests in the interceptor.
-/

namespace SwapSDK

/-- JSON-like values exchanged with the backend. -/
inductive Json where
  | null
  | bool (b : Bool)
  | num (n : Int)
  | str (s : String)
  | arr (xs : List Json)
  | obj (fields : List (String × Json))
deriving Repr

/-- A header map, as a JS object: an association list, first match wins. -/
abbrev Headers := List (String × String)

/-- Header lookup (JS property read). -/
def getHeader (hs : Headers) (k : String) : Option String :=
  (hs.find? (fun p => p.1 == k)).map (fun p => p.2)

/-- JS object spread `{ ...base, ...extra }`: keys of `extra` override `base`. -/
def spreadMerge (base extra : Headers) : Headers :=
  base.filter (fun p => (getHeader extra p.1).isNone) ++ extra

/-- JS property assignment `hs[k] = v`. -/
def setHeader (hs : Headers) (k v : String) : Headers :=
  spreadMerge hs [(k, v)]

/-- JS `a || b` for an optional string `a`: `b` when `a` is undefined or empty. -/
def jsOrStr (a : Option String) (b : String) : String :=
  match a with
  | some s => if s == "" then b else s
  | none => b

/-- The SwapSDKOptions record from src/types.ts: all fields optional. -/
structure SwapSDKOptions where
  baseURL : Option String := none
  timeout : Option Nat := none
  headers : Option Headers := none
deriving Repr, DecidableEq

/-- The configured HTTP client produced by the constructor (`axios.create`). -/
structure ClientConfig where
  baseURL : String
  timeout : Nat
  headers : Headers
deriving Repr, DecidableEq

/-- The SwapSDK constructor (source lines 39–53): defaults
`baseURL = "https://zos.computer/"`, `timeout = 10000`, and default headers
the object literal spread of the Content-Type: application/json entry with
the caller-supplied headers map (spread last, so the caller overrides). -/
def createClient (options : SwapSDKOptions) : ClientConfig :=
  { baseURL := options.baseURL.getD "https://zos.computer/"
  , timeout := options.timeout.getD 10000
  , headers := spreadMerge [("Content-Type", "application/json")] (options.headers.getD []) }

/-- The mutable state of one `SwapSDK` instance: the client configuration
(fixed at construction) and the current auth token (`this.authToken`). -/
structure SDKState where
  config : ClientConfig
  authToken : Option String
deriving Repr, DecidableEq

/-- A freshly constructed `SwapSDK` instance: no auth token set. -/
def mkSDK (options : SwapSDKOptions) : SDKState :=
  { config := createClient options, authToken := none }

/-- The setAuthToken method (source lines 88–90). -/
def setAuthToken (s : SDKState) (t : String) : SDKState :=
  { s with authToken := some t }

/-- The clearAuthToken method (source lines 95–97). -/
def clearAuthToken (s : SDKState) : SDKState :=
  { s with authToken := none }

/-- The getAuthToken method (source lines 103–105). -/
def getAuthToken (s : SDKState) : Option String :=
  s.authToken

/-- HTTP method of an outgoing request. -/
inductive HttpMethod where
  | get
  | post
deriving Repr, DecidableEq

/-- One outgoing HTTP request as handed to the transport:
method, path, optional query params, optional body, headers. -/
structure Request where
  method : HttpMethod
  path : String
  params : Option Json
  body : Option Json
  headers : Headers
deriving Repr

/-- The request interceptor (source lines 56–64): when the current auth
token is truthy, attach it under the header name x-auth-token; JS
truthiness makes the empty string falsy. -/
def requestInterceptor (s : SDKState) (req : Request) : Request :=
  match s.authToken with
  | some t =>
      if t == "" then req
      else { req with headers := setHeader req.headers "x-auth-token" t }
  | none => req

/-- The private `get` helper (source lines 113–117): builds a GET request;
default headers come from the client config, then the request interceptor runs. -/
def getRequest (s : SDKState) (endpoint : String) (params : Option Json) : Request :=
  requestInterceptor s
    { method := .get, path := endpoint, params := params, body := none
    , headers := s.config.headers }

/-- The private `post` helper (source lines 125–128): builds a POST request. -/
def postRequest (s : SDKState) (endpoint : String) (data : Option Json) : Request :=
  requestInterceptor s
    { method := .post, path := endpoint, params := none, body := data
    , headers := s.config.headers }

/-- The error-response body fields the response interceptor reads
(`data?.message`, `data?.error`, `data?.code`), each possibly absent. -/
structure ErrData where
  message : Option String
  error : Option String
  code : Option String
deriving Repr, DecidableEq

/-- The response part of an axios error: status and optional body data. -/
structure ErrResponse where
  status : Nat
  data : Option ErrData
deriving Repr, DecidableEq

/-- The raw transport error the response interceptor receives:
`response` present iff the server answered, `hasRequest` true iff the
request object exists (request was sent), plus the local error message. -/
structure AxiosError where
  response : Option ErrResponse
  hasRequest : Bool
  message : String
deriving Repr, DecidableEq

/-- The SwapAPIError class (source lines 18–26): the normalized error shape. -/
structure SwapAPIError where
  message : String
  code : Option String
deriving Repr, DecidableEq

/-- How one dispatched request settles at the transport: either a successful
response with a body, or a raw error. -/
inductive BackendOutcome where
  | success (body : Json)
  | failure (e : AxiosError)
deriving Repr

/-- A backend: what outcome each dispatched request settles with. -/
abbrev Backend := Request → BackendOutcome

/-- The failure branch of the response interceptor (source lines 69–80):
message is the chained fallback of the data fields message, then error,
then the fixed literal, under JS truthiness; code is the data field code;
plus the two no-response branches. -/
def normalizeError (e : AxiosError) : SwapAPIError :=
  match e.response with
  | some r =>
      { message := jsOrStr (r.data.bind ErrData.message)
          (jsOrStr (r.data.bind ErrData.error) "Unknown error occurred")
      , code := r.data.bind ErrData.code }
  | none =>
      if e.hasRequest then
        { message := "Network error: No response received from server", code := none }
      else
        { message := "Request error: " ++ e.message, code := none }

/-- The response interceptor (source lines 67–81): success passes through,
failure throws the normalized `SwapAPIError`. -/
def responseInterceptor (o : BackendOutcome) : Except SwapAPIError Json :=
  match o with
  | .success b => .ok b
  | .failure e => .error (normalizeError e)

/-- The CreateExchangeRequest record from src/types.ts. -/
structure CreateExchangeRequest where
  fromCurrency : String
  toCurrency : String
  amount : Int
  recipientAddress : String
  refundAddress : Option String := none
  refundExtraId : Option String := none
deriving Repr, DecidableEq

/-- The JSON body sent for `createExchange`: the request record verbatim,
optional fields omitted when absent (as JSON serialization drops `undefined`). -/
def encodeCreateExchangeRequest (r : CreateExchangeRequest) : Json :=
  .obj
    ([ ("fromCurrency", .str r.fromCurrency)
     , ("toCurrency", .str r.toCurrency)
     , ("amount", .num r.amount)
     , ("recipientAddress", .str r.recipientAddress) ]
     ++ (match r.refundAddress with
         | some a => [("refundAddress", Json.str a)]
         | none => [])
     ++ (match r.refundExtraId with
         | some a => [("refundExtraId", Json.str a)]
         | none => []))

/-- One invocation of one of the seven public endpoint methods. -/
inductive EndpointCall where
  | getCurrencies
  | getExchangeRate (fromCurrency toCurrency : String) (amount : Int)
  | getExchangeRange (fromCurrency toCurrency : String)
  | createExchange (req : CreateExchangeRequest)
  | getExchangeStatus (swapId : String)
  | getSwapHistory
  | getSwapDetails (swapId : String)
deriving Repr, DecidableEq

/-- The request each endpoint method builds (source lines 134–206):
paths, query-vs-body placement, and path interpolation of `swapId`. -/
def buildRequest (s : SDKState) : EndpointCall → Request
  | .getCurrencies => getRequest s "/swap/currencies" none
  | .getExchangeRate f t amount =>
      postRequest s "/swap/estimate"
        (some (.obj [ ("fromCurrency", .str f), ("toCurrency", .str t)
                    , ("amount", .num amount) ]))
  | .getExchangeRange f t =>
      getRequest s "/swap/range"
        (some (.obj [ ("fromCurrency", .str f), ("toCurrency", .str t) ]))
  | .createExchange r => postRequest s "/swap/create" (some (encodeCreateExchangeRequest r))
  | .getExchangeStatus swapId => getRequest s ("/swap/status/" ++ swapId) none
  | .getSwapHistory => getRequest s "/swap/history" none
  | .getSwapDetails swapId => getRequest s ("/swap/" ++ swapId) none

/-- Run one endpoint method against a backend: build the request (default
headers plus request interceptor), dispatch it, pass the outcome through the
response interceptor, and return `response.data` on success. The endpoint
methods never assign `this.authToken` or the client config, so the state
comes back as it went in. -/
def callEndpoint (s : SDKState) (backend : Backend) (c : EndpointCall) :
    Except SwapAPIError Json × SDKState :=
  (responseInterceptor (backend (buildRequest s c)), s)

/-- Auth-token operations a caller may interleave before issuing requests. -/
inductive SDKOp where
  | set (t : String)
  | clear
deriving Repr, DecidableEq

/-- Run a sequence of auth-token operations on an instance. -/
def runOps (s : SDKState) : List SDKOp → SDKState
  | [] => s
  | .set t :: rest => runOps (setAuthToken s t) rest
  | .clear :: rest => runOps (clearAuthToken s) rest

/-- The method/path/params/body part of a request (everything but headers). -/
def reqLine (r : Request) : HttpMethod × String × Option Json × Option Json :=
  (r.method, r.path, r.params, r.body)

/-! ## Helper lemmas -/

/-- Filtering out only elements the predicate `p` rejects anyway does not
change the first `p`-match. -/
theorem find?_filter_of_imp {α : Type} (l : List α) (p q : α → Bool)
    (h : ∀ x ∈ l, p x = true → q x = true) :
    (l.filter q).find? p = l.find? p := by
  induction l with
  | nil => rfl
  | cons a tl ih =>
    have ih' := ih (fun x hx hp => h x (List.mem_cons_of_mem a hx) hp)
    rw [List.filter_cons]
    by_cases hq : q a = true
    · simp only [hq, if_true]
      by_cases hp : p a = true
      · simp [List.find?_cons, hp]
      · simp only [List.find?_cons, Bool.not_eq_true] at hp ⊢
        simp [hp, ih']
    · have hp : p a = false := by
        by_contra hc
        exact hq (h a (List.mem_cons_self a tl) (by simpa using hc))
      simp only [hq, if_false]
      simp [List.find?_cons, hp, ih']

/-- A key present in `extra` wins after a spread merge. -/
theorem getHeader_spreadMerge_of_mem (base extra : Headers) (k v : String)
    (h : getHeader extra k = some v) :
    getHeader (spreadMerge base extra) k = some v := by
  have hnone : (base.filter (fun p => (getHeader extra p.1).isNone)).find?
      (fun p => p.1 == k) = none := by
    rw [List.find?_eq_none]
    intro x hx hpx
    rw [List.mem_filter] at hx
    have hk : x.1 = k := by simpa using hpx
    rw [hk, h] at hx
    simp at hx
  simp only [spreadMerge, getHeader] at hnone h ⊢
  rw [List.find?_append, hnone, Option.none_or]
  exact h

/-- A key absent from `extra` falls back to `base` after a spread merge. -/
theorem getHeader_spreadMerge_of_notMem (base extra : Headers) (k : String)
    (h : getHeader extra k = none) :
    getHeader (spreadMerge base extra) k = getHeader base k := by
  have hextra : extra.find? (fun p => p.1 == k) = none := by
    unfold getHeader at h
    exact Option.map_eq_none.mp h
  have hfilter : (base.filter (fun p => (getHeader extra p.1).isNone)).find?
      (fun p => p.1 == k) = base.find? (fun p => p.1 == k) := by
    refine find?_filter_of_imp base _ _ (fun x _ hpx => ?_)
    have hk : x.1 = k := by simpa using hpx
    rw [hk, h]
    rfl
  simp only [spreadMerge, getHeader] at hextra hfilter ⊢
  rw [List.find?_append, hfilter, hextra, Option.or_none]

/-- Assigning a header key makes lookups of that key return the value. -/
theorem getHeader_setHeader_self (hs : Headers) (k v : String) :
    getHeader (setHeader hs k v) k = some v := by
  unfold setHeader
  exact getHeader_spreadMerge_of_mem hs [(k, v)] k v (by simp [getHeader])

/-- Auth-token operations never touch the client configuration. -/
theorem runOps_config (s : SDKState) (ops : List SDKOp) :
    (runOps s ops).config = s.config := by
  induction ops generalizing s with
  | nil => rfl
  | cons op rest ih =>
    cases op with
    | set t => exact (ih (setAuthToken s t)).trans rfl
    | clear => exact (ih (clearAuthToken s)).trans rfl

/-- The request interceptor only touches headers. -/
theorem reqLine_requestInterceptor (s : SDKState) (req : Request) :
    reqLine (requestInterceptor s req) = reqLine req := by
  unfold requestInterceptor
  cases s.authToken with
  | none => rfl
  | some t =>
    by_cases h : t == ""
    · simp [h]
    · simp [h, reqLine]

/-- With no token set, every built request carries the config's headers. -/
theorem buildRequest_headers_of_none (s : SDKState) (c : EndpointCall)
    (h : s.authToken = none) :
    (buildRequest s c).headers = s.config.headers := by
  cases c <;> simp [buildRequest, getRequest, postRequest, requestInterceptor, h]

/-- With the empty-string token set, the interceptor attaches nothing. -/
theorem buildRequest_headers_of_empty (s : SDKState) (c : EndpointCall)
    (h : s.authToken = some "") :
    (buildRequest s c).headers = s.config.headers := by
  cases c <;> simp [buildRequest, getRequest, postRequest, requestInterceptor, h]

/-- With a non-empty token set, the interceptor assigns `x-auth-token`. -/
theorem buildRequest_headers_of_some (s : SDKState) (c : EndpointCall) (t : String)
    (h : s.authToken = some t) (ht : t ≠ "") :
    (buildRequest s c).headers = setHeader s.config.headers "x-auth-token" t := by
  cases c <;> simp [buildRequest, getRequest, postRequest, requestInterceptor, h, ht]

/-- Running a concatenation of operation lists runs them in sequence. -/
theorem runOps_append (s : SDKState) (xs ys : List SDKOp) :
    runOps s (xs ++ ys) = runOps (runOps s xs) ys := by
  induction xs generalizing s with
  | nil => rfl
  | cons op rest ih =>
    cases op with
    | set t => exact ih (setAuthToken s t)
    | clear => exact ih (clearAuthToken s)

/-! ## Claim theorems -/

/-- C3: for every endpoint method and every successful backend response with
body B, the method resolves with exactly B — no field added, removed,
renamed, defaulted, or transformed. -/
theorem C3_body_passthrough (s : SDKState) (backend : Backend) (c : EndpointCall)
    (b : Json) (hb : backend (buildRequest s c) = .success b) :
    (callEndpoint s backend c).1 = .ok b := by
  simp [callEndpoint, hb, responseInterceptor]

/-- Witness for C3: a successful history call resolves with the mocked body. -/
theorem C3_body_passthrough_witness :
    (callEndpoint (mkSDK {})
        (fun _ => .success (.obj [("min", .num 1), ("max", .num 100)]))
        .getSwapHistory).1
      = .ok (.obj [("min", .num 1), ("max", .num 100)]) :=
  C3_body_passthrough _ _ _ _ rfl

/-- C4: for every endpoint method and all argument values, the outgoing
request has the HTTP method, path, and parameter placement of the table in
spec section 4.2. -/
theorem C4_dispatch_table (s : SDKState) (f t : String) (amount : Int)
    (r : CreateExchangeRequest) (sid : String) :
    reqLine (buildRequest s .getCurrencies) = (.get, "/swap/currencies", none, none)
    ∧ reqLine (buildRequest s (.getExchangeRate f t amount)) =
        (.post, "/swap/estimate", none,
          some (.obj [("fromCurrency", .str f), ("toCurrency", .str t),
                      ("amount", .num amount)]))
    ∧ reqLine (buildRequest s (.getExchangeRange f t)) =
        (.get, "/swap/range",
          some (.obj [("fromCurrency", .str f), ("toCurrency", .str t)]), none)
    ∧ reqLine (buildRequest s (.createExchange r)) =
        (.post, "/swap/create", none, some (encodeCreateExchangeRequest r))
    ∧ reqLine (buildRequest s (.getExchangeStatus sid)) =
        (.get, "/swap/status/" ++ sid, none, none)
    ∧ reqLine (buildRequest s .getSwapHistory) = (.get, "/swap/history", none, none)
    ∧ reqLine (buildRequest s (.getSwapDetails sid)) =
        (.get, "/swap/" ++ sid, none, none) := by
  refine ⟨?_, ?_, ?_, ?_, ?_, ?_, ?_⟩ <;>
    (simp only [buildRequest, getRequest, postRequest]
     rw [reqLine_requestInterceptor]
     rfl)

/-- C6: when the request was sent but no response arrived, every endpoint
method rejects with the fixed network-error message and no code. -/
theorem C6_network_error (s : SDKState) (backend : Backend) (c : EndpointCall)
    (m : String)
    (hb : backend (buildRequest s c) =
      .failure { response := none, hasRequest := true, message := m }) :
    (callEndpoint s backend c).1 =
      .error { message := "Network error: No response received from server"
             , code := none } := by
  simp [callEndpoint, hb, responseInterceptor, normalizeError]

/-- Witness for C6 at a concrete no-response failure. -/
theorem C6_network_error_witness :
    (callEndpoint (mkSDK {})
        (fun _ => .failure { response := none, hasRequest := true, message := "timeout" })
        .getCurrencies).1
      = .error { message := "Network error: No response received from server"
               , code := none } :=
  C6_network_error _ _ _ _ rfl

/-- C7: when the request could not be constructed or sent at all (no
response and no request on the underlying error), every endpoint method
rejects with "Request error: " concatenated with the underlying message,
and no code. -/
theorem C7_request_error (s : SDKState) (backend : Backend) (c : EndpointCall)
    (m : String)
    (hb : backend (buildRequest s c) =
      .failure { response := none, hasRequest := false, message := m }) :
    (callEndpoint s backend c).1 =
      .error { message := "Request error: " ++ m, code := none } := by
  simp [callEndpoint, hb, responseInterceptor, normalizeError]

/-- Witness for C7 at a concrete local failure. -/
theorem C7_request_error_witness :
    (callEndpoint (mkSDK {})
        (fun _ => .failure { response := none, hasRequest := false
                           , message := "bad config" })
        .getCurrencies).1
      = .error { message := "Request error: " ++ "bad config", code := none } :=
  C7_request_error _ _ _ _ rfl

/-- C9: the swapId is interpolated into the path unencoded, so
getSwapDetails on "status/" ++ i builds exactly the request that
getExchangeStatus on i builds, and it is a GET. -/
theorem C9_path_collision (s : SDKState) (i : String) :
    buildRequest s (.getSwapDetails ("status/" ++ i)) =
      buildRequest s (.getExchangeStatus i)
    ∧ (buildRequest s (.getExchangeStatus i)).method = .get := by
  have hp : "/swap/" ++ ("status/" ++ i) = "/swap/status/" ++ i := by
    rw [← String.append_assoc]
    rfl
  refine ⟨by simp [buildRequest, getRequest, hp], ?_⟩
  have := reqLine_requestInterceptor s
    { method := .get, path := "/swap/status/" ++ i, params := none, body := none
    , headers := s.config.headers }
  simp only [buildRequest, getRequest]
  exact congrArg Prod.fst this

/-- C10: every endpoint call, whether it resolves or rejects, leaves the
instance state — auth token and client configuration — unchanged. -/
theorem C10_frame (s : SDKState) (backend : Backend) (c : EndpointCall) :
    (callEndpoint s backend c).2 = s
    ∧ getAuthToken (callEndpoint s backend c).2 = getAuthToken s
    ∧ (callEndpoint s backend c).2.config = s.config :=
  ⟨rfl, rfl, rfl⟩

/-- C1 counterexample: a non-2xx response whose body has a message field
holding the empty string. The claim says the rejection message is the body
message field, i.e. the empty string, but the JS fallback chain treats an
empty string as falsy and yields the literal "Unknown error occurred". -/
theorem C1_counterexample :
    (callEndpoint (mkSDK {})
        (fun _ => .failure
          { response := some
              { status := 400
              , data := some { message := some "", error := none, code := none } }
          , hasRequest := true, message := "" })
        .getCurrencies).1
      = .error { message := "Unknown error occurred", code := none }
    ∧ ("Unknown error occurred" : String) ≠ "" :=
  ⟨rfl, by decide⟩

/-- C1 amended: for every endpoint method and every failure with a non-2xx
response carrying body data, the rejection message is the body message
field when that field is a non-empty string, else the body error field when
that is a non-empty string, else the literal "Unknown error occurred"; the
code is the body code field if present, else absent. -/
theorem C1_error_normalization (s : SDKState) (backend : Backend)
    (c : EndpointCall) (st : Nat) (d : ErrData) (hreq : Bool) (msg0 : String)
    (hb : backend (buildRequest s c) =
      .failure { response := some { status := st, data := some d }
               , hasRequest := hreq, message := msg0 }) :
    ∃ err : SwapAPIError,
      (callEndpoint s backend c).1 = .error err
      ∧ (∀ m, d.message = some m → m ≠ "" → err.message = m)
      ∧ (∀ e, (d.message = none ∨ d.message = some "") → d.error = some e →
          e ≠ "" → err.message = e)
      ∧ ((d.message = none ∨ d.message = some "") →
          (d.error = none ∨ d.error = some "") →
          err.message = "Unknown error occurred")
      ∧ err.code = d.code := by
  refine ⟨normalizeError
      { response := some { status := st, data := some d },
        hasRequest := hreq, message := msg0 },
    ?_, ?_, ?_, ?_, ?_⟩
  · simp [callEndpoint, hb, responseInterceptor]
  · intro m hm hne
    simp [normalizeError, hm, jsOrStr, hne]
  · intro e hm he hne
    rcases hm with hm | hm <;> simp [normalizeError, hm, he, jsOrStr, hne]
  · intro hm he
    rcases hm with hm | hm <;> rcases he with he | he <;>
      simp [normalizeError, hm, he, jsOrStr]
  · simp [normalizeError]

/-- Witness for the amended C1 at a concrete backend rejection. -/
theorem C1_error_normalization_witness :
    ∃ err : SwapAPIError,
      (callEndpoint (mkSDK {})
          (fun _ => .failure
            { response := some
                { status := 400
                , data := some { message := some "Invalid parameters"
                               , error := some "Bad Request"
                               , code := some "INVALID_PARAMS" } }
            , hasRequest := true, message := "boom" })
          .getCurrencies).1 = .error err
      ∧ (∀ m, (some "Invalid parameters" : Option String) = some m → m ≠ "" →
          err.message = m)
      ∧ (∀ e, ((some "Invalid parameters" : Option String) = none ∨
            (some "Invalid parameters" : Option String) = some "") →
          (some "Bad Request" : Option String) = some e → e ≠ "" →
          err.message = e)
      ∧ (((some "Invalid parameters" : Option String) = none ∨
            (some "Invalid parameters" : Option String) = some "") →
          ((some "Bad Request" : Option String) = none ∨
            (some "Bad Request" : Option String) = some "") →
          err.message = "Unknown error occurred")
      ∧ err.code = some "INVALID_PARAMS" :=
  C1_error_normalization (mkSDK {})
    (fun _ => .failure
      { response := some
          { status := 400
          , data := some { message := some "Invalid parameters"
                         , error := some "Bad Request"
                         , code := some "INVALID_PARAMS" } }
      , hasRequest := true, message := "boom" })
    .getCurrencies 400
    { message := some "Invalid parameters", error := some "Bad Request"
    , code := some "INVALID_PARAMS" }
    true "boom" rfl

/-- C2 counterexample: the claim quantifies over every token value, but
after setAuthToken with the empty string the issued request carries no
x-auth-token header at all, because the interceptor tests JS truthiness. -/
theorem C2_counterexample :
    getHeader (buildRequest (setAuthToken (mkSDK {}) "") .getCurrencies).headers
        "x-auth-token" = none
    ∧ (none : Option String) ≠ some "" :=
  ⟨rfl, by decide⟩

/-- C2 amended: for every non-empty token t, on an instance whose configured
default headers do not themselves contain x-auth-token: after any sequence
of auth-token operations ending in setAuthToken t, every issued request
carries x-auth-token with value t; after any sequence ending in
clearAuthToken, issued requests carry no x-auth-token header; and requests
issued before any setAuthToken call carry no x-auth-token header. -/
theorem C2_auth_header (opts : SwapSDKOptions) (pre : List SDKOp) (t : String)
    (c : EndpointCall)
    (hcfg : getHeader (mkSDK opts).config.headers "x-auth-token" = none)
    (ht : t ≠ "") :
    getHeader (buildRequest (runOps (mkSDK opts) (pre ++ [.set t])) c).headers
        "x-auth-token" = some t
    ∧ getHeader (buildRequest (runOps (mkSDK opts) (pre ++ [.clear])) c).headers
        "x-auth-token" = none
    ∧ getHeader (buildRequest (mkSDK opts) c).headers "x-auth-token" = none := by
  refine ⟨?_, ?_, ?_⟩
  · rw [runOps_append]
    have hset : runOps (runOps (mkSDK opts) pre) [.set t]
        = setAuthToken (runOps (mkSDK opts) pre) t := rfl
    rw [hset, buildRequest_headers_of_some _ c t rfl ht]
    have hcfg2 : (setAuthToken (runOps (mkSDK opts) pre) t).config
        = (mkSDK opts).config := runOps_config _ _
    rw [hcfg2]
    exact getHeader_setHeader_self _ _ _
  · rw [runOps_append]
    have hclear : runOps (runOps (mkSDK opts) pre) [.clear]
        = clearAuthToken (runOps (mkSDK opts) pre) := rfl
    rw [hclear, buildRequest_headers_of_none _ c rfl]
    have hcfg2 : (clearAuthToken (runOps (mkSDK opts) pre)).config
        = (mkSDK opts).config := runOps_config _ _
    rw [hcfg2]
    exact hcfg
  · rw [buildRequest_headers_of_none _ c rfl]
    exact hcfg

/-- Witness for the amended C2 at a concrete instance and token. -/
theorem C2_auth_header_witness :
    getHeader (buildRequest (runOps (mkSDK {}) ([] ++ [.set "test-auth-token"]))
        .getCurrencies).headers "x-auth-token" = some "test-auth-token"
    ∧ getHeader (buildRequest (runOps (mkSDK {}) ([] ++ [.clear]))
        .getCurrencies).headers "x-auth-token" = none
    ∧ getHeader (buildRequest (mkSDK {}) .getCurrencies).headers
        "x-auth-token" = none :=
  C2_auth_header {} [] "test-auth-token" .getCurrencies rfl (by decide)

/-- C5 counterexample: a caller-supplied headers map that itself contains
Content-Type. The object spread puts caller headers after the fixed entry,
so the caller value overrides — the defaults do not contain
Content-Type: application/json, contradicting "merged under it, not over
it". -/
theorem C5_counterexample :
    getHeader (createClient
        { headers := some [("Content-Type", "text/plain")] }).headers
        "Content-Type" = some "text/plain"
    ∧ ("text/plain" : String) ≠ "application/json" :=
  ⟨rfl, by decide⟩

/-- C5 amended: caller headers are merged over the base
Content-Type: application/json entry, so a caller-supplied Content-Type
overrides it; when the caller map has no Content-Type entry, the
constructed default headers contain Content-Type: application/json; every
caller-supplied header is present with its value; and when unspecified the
baseURL defaults to "https://zos.computer/" and the timeout to 10000. -/
theorem C5_construction (opts : SwapSDKOptions) :
    (∀ k v, getHeader (opts.headers.getD []) k = some v →
        getHeader (createClient opts).headers k = some v)
    ∧ (∀ v, getHeader (opts.headers.getD []) "Content-Type" = some v →
        getHeader (createClient opts).headers "Content-Type" = some v)
    ∧ (getHeader (opts.headers.getD []) "Content-Type" = none →
        getHeader (createClient opts).headers "Content-Type" = some "application/json")
    ∧ (opts.baseURL = none → (createClient opts).baseURL = "https://zos.computer/")
    ∧ (opts.timeout = none → (createClient opts).timeout = 10000) := by
  refine ⟨?_, ?_, ?_, ?_, ?_⟩
  · intro k v hkv
    exact getHeader_spreadMerge_of_mem _ _ _ _ hkv
  · intro v hv
    exact getHeader_spreadMerge_of_mem _ _ _ _ hv
  · intro hct
    show getHeader (spreadMerge [("Content-Type", "application/json")]
        (opts.headers.getD [])) "Content-Type" = some "application/json"
    rw [getHeader_spreadMerge_of_notMem _ _ _ hct]
    rfl
  · intro h
    simp [createClient, h]
  · intro h
    simp [createClient, h]

/-- Witness for the amended C5: a caller Content-Type overrides the base
entry, and the empty options record yields all three defaults. -/
theorem C5_construction_witness :
    getHeader (createClient
        { headers := some [("Content-Type", "text/plain")] }).headers
        "Content-Type" = some "text/plain"
    ∧ getHeader (createClient {}).headers "Content-Type" = some "application/json"
    ∧ (createClient {}).baseURL = "https://zos.computer/"
    ∧ (createClient {}).timeout = 10000 :=
  ⟨(C5_construction { headers := some [("Content-Type", "text/plain")] }).2.1
      "text/plain" rfl,
   (C5_construction {}).2.2.1 rfl,
   (C5_construction {}).2.2.2.1 rfl,
   (C5_construction {}).2.2.2.2 rfl⟩

/-- C8: after setAuthToken with the empty string, getAuthToken returns the
empty string (stored without validation), yet issued requests carry no
x-auth-token header, because the interceptor tests JS truthiness rather
than presence. Stated for instances whose configured default headers do not
themselves contain x-auth-token. -/
theorem C8_empty_token (opts : SwapSDKOptions) (c : EndpointCall)
    (hcfg : getHeader (mkSDK opts).config.headers "x-auth-token" = none) :
    getAuthToken (setAuthToken (mkSDK opts) "") = some ""
    ∧ getHeader (buildRequest (setAuthToken (mkSDK opts) "") c).headers
        "x-auth-token" = none := by
  refine ⟨rfl, ?_⟩
  rw [buildRequest_headers_of_empty _ c rfl]
  exact hcfg

/-- Witness for C8 on a default-constructed instance. -/
theorem C8_empty_token_witness :
    getAuthToken (setAuthToken (mkSDK {}) "") = some ""
    ∧ getHeader (buildRequest (setAuthToken (mkSDK {}) "") .getSwapHistory).headers
        "x-auth-token" = none :=
  C8_empty_token {} .getSwapHistory rfl

end SwapSDK
